import Mathlib

/-
Verification of scripts/nvim-control.py (claudecode-tmux.nvim).

Shallow embedding of the Python source. Conventions:

* A Python exception in flight is a value of `PyExc`; a function that can
  raise returns `Except PyExc α`; `.error e` means the exception `e`
  propagates to the caller uncaught.
* JSON values are the inductive `Json`; a descriptor file's contents are
  modelled by the outcome of `json.load` on them (`Except PyExc Json`),
  since the bytes themselves are only ever consumed by `json.load`.
* The environment is the pair of variables the script reads; the
  `~/.claude/ide` directory is the list of its `*.lock` entries in glob
  enumeration order, each with basename, mtime and parse outcome.
* The WebSocket wire and stdin/stdout are modelled as explicit event
  lists; `ws.send (json.dumps v)` is recorded as the structured value `v`.
-/

/-- Python exceptions that the script can raise or observe:
`json.JSONDecodeError` from `json.load`, connection failures from
`websockets.connect` / socket operations, and anything else. -/
inductive PyExc where
  | jsonDecodeError (msg : String)
  | connectError (msg : String)
  | otherExc (msg : String)

/-- Python `str(e)` on an exception, as used in the proxy's synthetic
connect-failure message. -/
def pyStr : PyExc → String
  | .jsonDecodeError m => m
  | .connectError m => m
  | .otherExc m => m

/-- JSON values (the result of `json.load` / the argument of `json.dumps`). -/
inductive Json where
  | null
  | bool (b : Bool)
  | num (n : Int)
  | str (s : String)
  | arr (elems : List Json)
  | obj (fields : List (String × Json))

/-- Field lookup on a JSON object; `none` when the key is absent or the
value is not an object.  Used to state properties of messages the script
builds. -/
def jsonField (v : Json) (k : String) : Option Json :=
  match v with
  | .obj fields => (fields.find? (fun kv => kv.fst == k)).map (fun kv => kv.snd)
  | _ => none

/-- Python `data.get(k)`: returns the value or `None` on a dict, raises
`AttributeError` when `data` is not a dict. -/
def pyDictGet (v : Json) (k : String) : Except PyExc (Option Json) :=
  match v with
  | .obj fields => .ok ((fields.find? (fun kv => kv.fst == k)).map (fun kv => kv.snd))
  | _ => .error (.otherExc "AttributeError")

/-- Python truthiness of a JSON value (`if not auth_token`). -/
def jsonTruthy : Json → Bool
  | .null => false
  | .bool b => b
  | .num n => n != 0
  | .str s => s != ""
  | .arr es => !es.isEmpty
  | .obj fs => !fs.isEmpty

/-- Python truthiness of an optional JSON value (`None` is falsy). -/
def optJsonTruthy : Option Json → Bool
  | none => false
  | some v => jsonTruthy v

/-- Python truthiness of an optional string (`None` and `""` are falsy). -/
def optStrTruthy : Option String → Bool
  | none => false
  | some s => s != ""

/-- Python `a or b` on two optional strings (`os.environ.get` results):
yields `a` when `a` is truthy, otherwise `b`. -/
def pyOrStr (a b : Option String) : Option String :=
  match a with
  | some s => if s == "" then b else some s
  | none => b

/-- One `*.lock` entry of `~/.claude/ide`: its basename, its modification
time, and the outcome of `json.load` on its contents. -/
structure FileEntry where
  name : String
  mtime : Nat
  json : Except PyExc Json

/-- The two environment variables `get_lock_file` reads (source line 50). -/
structure Env where
  claudeCodeSsePort : Option String
  nvimControlPort : Option String

/-- The `~/.claude/ide` directory: its `*.lock` files in the order
`glob.glob` enumerates them. -/
structure IdeDir where
  files : List FileEntry

/-- Python `max(x :: xs, key := key)`: scans left to right and replaces the
running best only on a strictly greater key, so the first maximal element
wins (source line 66, `max(lock_files, key=os.path.getmtime)`). -/
def pyMaxBy (key : FileEntry → Nat) (x : FileEntry) : List FileEntry → FileEntry
  | [] => x
  | y :: ys => pyMaxBy key (if key x < key y then y else x) ys

/-- Python `str.replace(".lock", "")` on a list of characters: removes every
non-overlapping occurrence of `.lock`, left to right. -/
def removeLockAux : List Char → List Char
  | '.' :: 'l' :: 'o' :: 'c' :: 'k' :: rest => removeLockAux rest
  | c :: cs => c :: removeLockAux cs
  | [] => []

/-- Python `name.replace(".lock", "")` (source line 71). -/
def pyReplaceLock (s : String) : String :=
  ⟨removeLockAux s.data⟩

/-- Opening a lock file and extracting the token (source lines 55-57 and
68-74): `json.load` may raise; on success the pair
`(port, data.get('authToken'))` is returned. -/
def readLock (f : FileEntry) (port : String) : Except PyExc (Option String × Option Json) :=
  match f.json with
  | .error e => .error e
  | .ok data =>
    match pyDictGet data "authToken" with
    | .error e => .error e
    | .ok tok => .ok (some port, tok)

/-- The fallback branch of `get_lock_file` (source lines 59-74): with no
lock files return `(None, None)`; otherwise read the entry with the most
recent mtime, deriving the port from its basename. -/
def lockFallback (dir : IdeDir) : Except PyExc (Option String × Option Json) :=
  match dir.files with
  | [] => .ok (none, none)
  | f :: fs =>
    let latest := pyMaxBy FileEntry.mtime f fs
    readLock latest (pyReplaceLock latest.name)

/-- `get_lock_file` (source lines 39-74).  The env hint
`CLAUDE_CODE_SSE_PORT or NVIM_CONTROL_PORT` is consulted first; when it is
truthy and the file named after it with suffix `.lock` exists, that file is read; in every
other case (no truthy hint, or hinted file absent) the most-recent-file
fallback runs. -/
def get_lock_file (env : Env) (dir : IdeDir) : Except PyExc (Option String × Option Json) :=
  match pyOrStr env.claudeCodeSsePort env.nvimControlPort with
  | some p =>
    if p == "" then lockFallback dir
    else
      match dir.files.find? (fun g => g.name == p ++ ".lock") with
      | some f => readLock f p
      | none => lockFallback dir
  | none => lockFallback dir

/-- One event on the WebSocket channel of a one-shot invocation:
`.send v` is `await ws.send (json.dumps v)`, `.recv v` is an
`await ws.recv()` whose text parses (`json.loads`) to `v`. -/
inductive ChanEvent where
  | send (v : Json)
  | recv (v : Json)

/-- The handshake request (source lines 84-93 and 119-128). -/
def init_msg : Json :=
  .obj [("jsonrpc", .str "2.0"), ("id", .num 1), ("method", .str "initialize"),
    ("params", .obj [("protocolVersion", .str "2024-11-05"),
      ("capabilities", .obj []),
      ("clientInfo", .obj [("name", .str "nvim-control"), ("version", .str "1.0")])])]

/-- The `tools/call` request built by `call_tool` (source lines 98-106). -/
def tool_call_msg (toolName : String) (arguments : Json) : Json :=
  .obj [("jsonrpc", .str "2.0"), ("id", .num 2), ("method", .str "tools/call"),
    ("params", .obj [("name", .str toolName), ("arguments", arguments)])]

/-- The `tools/list` request built by `list_tools` (source lines 133-138). -/
def tools_list_msg : Json :=
  .obj [("jsonrpc", .str "2.0"), ("id", .num 2), ("method", .str "tools/list"),
    ("params", .obj [])]

/-- `call_tool` (source lines 77-109), as the channel trace it produces and
the value it returns, given the successive responses the server sends.
`none` models the coroutine blocking forever on `ws.recv()` for lack of a
response.  The returned value is the second response, parsed, whatever its
contents. -/
def call_tool (toolName : String) (arguments : Json) (responses : List Json) :
    Option (List ChanEvent × Json) :=
  match responses with
  | r1 :: r2 :: _ =>
    some ([.send init_msg, .recv r1, .send (tool_call_msg toolName arguments), .recv r2], r2)
  | _ => none

/-- `list_tools` (source lines 112-141), same shape as `call_tool` with the
`tools/list` request. -/
def list_tools (responses : List Json) : Option (List ChanEvent × Json) :=
  match responses with
  | r1 :: r2 :: _ =>
    some ([.send init_msg, .recv r1, .send tools_list_msg, .recv r2], r2)
  | _ => none

/-- Whether a channel event is a send. -/
def isSend : ChanEvent → Bool
  | .send _ => true
  | .recv _ => false

/-- The messages sent on a channel trace, in order. -/
def sentMsgs : List ChanEvent → List Json
  | [] => []
  | .send v :: es => v :: sentMsgs es
  | .recv _ :: es => sentMsgs es

/-- The events strictly between the first and the second send of a trace. -/
def betweenFirstTwoSends (es : List ChanEvent) : List ChanEvent :=
  ((es.dropWhile (fun e => !isSend e)).drop 1).takeWhile (fun e => !isSend e)

/-- Whether a message carries `id = 1`. -/
def idIsOne (v : Json) : Bool :=
  match jsonField v "id" with
  | some (.num n) => n == 1
  | _ => false

/-- What a stdout `print` writes: either a relayed message forwarded
verbatim (`print(message, ...)`), or the `json.dumps` serialization of an
object the script built itself. -/
inductive OutLine where
  | raw (s : String)
  | ser (v : Json)

/-- One observable stdout action: `.write x` is the payload of `x` followed
by `print`'s trailing newline; `.flush` is the explicit flush
(`flush=True`).  `print(x, flush=True)` therefore contributes
`[.write x, .flush]`. -/
inductive StdoutEvent where
  | write (x : OutLine)
  | flush

/-- `print(json.dumps v, flush=True)` as stdout events. -/
def printSer (v : Json) : List StdoutEvent :=
  [.write (.ser v), .flush]

/-- Python `line.strip()` (default: both ends, whitespace being space, tab,
newline, carriage return, vertical tab, form feed). -/
def isPySpace (c : Char) : Bool :=
  c == ' ' || c == '\t' || c == '\n' || c == '\r' ||
    c == Char.ofNat 11 || c == Char.ofNat 12

/-- Python `line.strip()`. -/
def pyStrip (s : String) : String :=
  ⟨((s.data.dropWhile isPySpace).reverse.dropWhile isPySpace).reverse⟩

/-- The inbound relay direction `stdin_to_ws` (source lines 166-177).
`stdinLines` are the successive results of `sys.stdin.readline()` (an
empty string is Python's end-of-file marker and breaks the loop);
`sendFail k` tells whether the k-th attempted `ws.send` raises.  The
surrounding `try ... except Exception: break` turns any raise into a bare
`break`, so the function returns the lines actually sent and never lets an
exception escape. -/
def stdin_to_ws (sendFail : Nat → Bool) : Nat → List String → List String
  | _, [] => []
  | k, line :: rest =>
    if line == "" then []
    else
      let stripped := pyStrip line
      if stripped == "" then stdin_to_ws sendFail k rest
      else if sendFail k then []
      else stripped :: stdin_to_ws sendFail (k + 1) rest

/-- How the `async for message in ws` iteration of `ws_to_stdout` ends:
a close with a normal code ends the iteration; any other close raises
`ConnectionClosedError`.  Both are subclasses of `ConnectionClosed`. -/
inductive CloseKind where
  | graceful
  | abnormal

/-- What the remote connection delivers to the outbound relay direction:
the received messages in order, then a close of either kind. -/
structure WsIncoming where
  msgs : List String
  close : CloseKind

/-- The stdout activity of `ws_to_stdout`'s loop body (source lines
181-182): each received message is printed verbatim with a flush before
the next is awaited. -/
def ws_to_stdout : List String → List StdoutEvent
  | [] => []
  | m :: rest => .write (.raw m) :: .flush :: ws_to_stdout rest

/-- The outbound relay direction `ws_to_stdout` (source lines 179-184):
stdout events plus the exception escaping the task, if any.  The handler
`except websockets.exceptions.ConnectionClosed: pass` catches both the
graceful and the abnormal close, so neither kind escapes. -/
def ws_to_stdout_run (w : WsIncoming) : List StdoutEvent × Option PyExc :=
  match w.close with
  | .graceful => (ws_to_stdout w.msgs, none)
  | .abnormal => (ws_to_stdout w.msgs, none)

/-- The observable outcome of a completed proxy run. -/
structure ProxyResult where
  stdout : List StdoutEvent
  sentToWs : List String
  relayStarted : Bool

/-- The no-session diagnostic (source lines 154 and 257). -/
def noSessionMsg : String :=
  "No Neovim instance found. Make sure claudecode.nvim is running (:ClaudeCodeStart)"

/-- The synthetic error response the proxy fabricates (source lines
149-156 and 189-196): `jsonrpc` 2.0, `id` null, code -32603. -/
def errorResponse (message : String) : Json :=
  .obj [("jsonrpc", .str "2.0"), ("id", .null),
    ("error", .obj [("code", .num (-32603)), ("message", .str message)])]

/-- The `code` field of a response's `error` object. -/
def errCode (v : Json) : Option Json :=
  (jsonField v "error").bind (fun e => jsonField e "code")

/-- `run_mcp_stdio_server` (source lines 144-197).  `connect` is the
outcome of `websockets.connect`; `sendFail`, `stdinLines` and `ws` drive
the two relay directions.  `get_lock_file` is called outside any handler,
so its exception propagates; an unusable lookup result or a connect
failure prints one synthetic error response and returns; otherwise
`asyncio.gather` runs both directions to completion, and an exception
escaping `gather` (none can, in this model of the loops) would be caught
by the outer handler and printed as a connect failure. -/
def run_mcp_stdio_server (env : Env) (dir : IdeDir) (connect : Except PyExc Unit)
    (sendFail : Nat → Bool) (stdinLines : List String) (ws : WsIncoming) :
    Except PyExc ProxyResult :=
  match get_lock_file env dir with
  | .error e => .error e
  | .ok (port?, token?) =>
    if !optStrTruthy port? || !optJsonTruthy token? then
      .ok ⟨printSer (errorResponse noSessionMsg), [], false⟩
    else
      match connect with
      | .error e =>
        .ok ⟨printSer (errorResponse ("Failed to connect to Neovim: " ++ pyStr e)), [], false⟩
      | .ok _ =>
        let sent := stdin_to_ws sendFail 0 stdinLines
        match ws_to_stdout_run ws with
        | (printed, some e) =>
          .ok ⟨printed ++ printSer (errorResponse ("Failed to connect to Neovim: " ++ pyStr e)),
            sent, true⟩
        | (printed, none) => .ok ⟨printed, sent, true⟩

/-- Exit status of `nvim-control.py mcp-server` (source lines 249-252):
`main` returns after `asyncio.run`, so the process exits 0 unless an
exception escaped the coroutine. -/
def main_mcp_exit (env : Env) (dir : IdeDir) (connect : Except PyExc Unit)
    (sendFail : Nat → Bool) (stdinLines : List String) (ws : WsIncoming) :
    Except PyExc Nat :=
  match run_mcp_stdio_server env dir connect sendFail stdinLines ws with
  | .error e => .error e
  | .ok _ => .ok 0

/-- Where a one-shot invocation of `main` stands after the lookup gate
(source lines 254-258): either it printed the no-instance error and called
`sys.exit(1)`, or it proceeds to the command dispatch with the lookup's
pair. -/
inductive OneShotGate where
  | noInstanceExit1
  | proceed (port? : Option String) (token? : Option Json)

/-- The lookup gate of `main` for non-`mcp-server` commands (source lines
254-258).  `get_lock_file` is called outside the `try`, so its exception
propagates and crashes the process. -/
def main_lookup_gate (env : Env) (dir : IdeDir) : Except PyExc OneShotGate :=
  match get_lock_file env dir with
  | .error e => .error e
  | .ok (p?, t?) =>
    if !optStrTruthy p? || !optJsonTruthy t? then .ok .noInstanceExit1
    else .ok (.proceed p? t?)

/-- The exit status forced by the gate: `sys.exit(1)` on the no-instance
branch, none (execution continues) otherwise. -/
def oneShotGateExit : OneShotGate → Option Nat
  | .noInstanceExit1 => some 1
  | .proceed _ _ => none

/-- Whether any stdout event is a synthesized (non-relay) write: the only
way the proxy ever reports an error on stdout. -/
def reportsError : List StdoutEvent → Bool
  | [] => false
  | .write (.ser _) :: _ => true
  | _ :: es => reportsError es

theorem pyMaxBy_mem (key : FileEntry → Nat) :
    ∀ (xs : List FileEntry) (x : FileEntry), pyMaxBy key x xs = x ∨ pyMaxBy key x xs ∈ xs
  | [], _ => Or.inl rfl
  | y :: ys, x => by
    rw [pyMaxBy]
    rcases pyMaxBy_mem key ys (if key x < key y then y else x) with h | h
    · rw [h]
      split
      · exact Or.inr (List.mem_cons_self _ _)
      · exact Or.inl rfl
    · exact Or.inr (List.mem_cons_of_mem _ h)

theorem pyMaxBy_le (key : FileEntry → Nat) :
    ∀ (xs : List FileEntry) (x g : FileEntry),
      g = x ∨ g ∈ xs → key g ≤ key (pyMaxBy key x xs)
  | [], x, g, h => by
    rcases h with h | h
    · subst h; exact Nat.le_refl _
    · cases h
  | y :: ys, x, g, h => by
    rw [pyMaxBy]
    have hx : key x ≤ key (if key x < key y then y else x) := by
      by_cases hxy : key x < key y
      · rw [if_pos hxy]; omega
      · rw [if_neg hxy]
    have hy : key y ≤ key (if key x < key y then y else x) := by
      by_cases hxy : key x < key y
      · rw [if_pos hxy]
      · rw [if_neg hxy]; omega
    have hz := pyMaxBy_le key ys (if key x < key y then y else x)
      (if key x < key y then y else x) (Or.inl rfl)
    rcases h with h | h
    · subst h; exact Nat.le_trans hx hz
    · rcases List.mem_cons.mp h with h | h
      · subst h; exact Nat.le_trans hy hz
      · exact pyMaxBy_le key ys _ g (Or.inr h)

theorem get_lock_file_noHint (env : Env) (dir : IdeDir)
    (h : optStrTruthy (pyOrStr env.claudeCodeSsePort env.nvimControlPort) = false) :
    get_lock_file env dir = lockFallback dir := by
  cases heq : pyOrStr env.claudeCodeSsePort env.nvimControlPort with
  | none => simp [get_lock_file, heq]
  | some p =>
    rw [heq] at h
    simp only [optStrTruthy, bne_eq_false_iff_eq] at h
    subst h
    simp [get_lock_file, heq]

theorem ws_to_stdout_run_eq (w : WsIncoming) :
    ws_to_stdout_run w = (ws_to_stdout w.msgs, none) := by
  cases w with
  | mk ms c => cases c <;> rfl

theorem ws_to_stdout_no_report : ∀ msgs, reportsError (ws_to_stdout msgs) = false
  | [] => rfl
  | _ :: rest => ws_to_stdout_no_report rest

def envNoHint : Env := ⟨none, none⟩

def env7777 : Env := ⟨some "7777", none⟩

def file100 : FileEntry := ⟨"100.lock", 10, .ok (.obj [("authToken", .str "tok100")])⟩

def dir100 : IdeDir := ⟨[file100]⟩

/-- C1 counterexample: env hint "7777" is set, no `7777.lock` exists, yet
discovery silently falls back to the sole lock file `100.lock` instead of
failing. -/
theorem c1_counterexample :
    get_lock_file env7777 dir100 = .ok (some "100", some (.str "tok100")) ∧
      get_lock_file env7777 dir100 ≠ .ok (none, none) := by
  refine ⟨rfl, fun h => ?_⟩
  have h0 : Except.ok ((some "100" : Option String), (some (.str "tok100") : Option Json)) =
      (Except.ok (none, none) : Except PyExc (Option String × Option Json)) :=
    (rfl : get_lock_file env7777 dir100 = _).symm.trans h
  simp at h0

/-- C1 (amended): when a port hint is set but its descriptor file does not
exist, `get_lock_file` silently falls back to the most-recent-lock-file
heuristic; it yields the no-session result `(None, None)` only when the
directory additionally holds no lock files at all. -/
theorem c1_hint_missing_falls_back (env : Env) (dir : IdeDir) (p : String)
    (h1 : pyOrStr env.claudeCodeSsePort env.nvimControlPort = some p)
    (h2 : p ≠ "")
    (h3 : dir.files.find? (fun g => g.name == p ++ ".lock") = none) :
    get_lock_file env dir = lockFallback dir ∧
      (dir.files = [] → get_lock_file env dir = .ok (none, none)) := by
  have hne : (p == "") = false := beq_eq_false_iff_ne.mpr h2
  have hmain : get_lock_file env dir = lockFallback dir := by
    simp [get_lock_file, h1, hne, h3]
  exact ⟨hmain, fun hnil => by rw [hmain]; simp [lockFallback, hnil]⟩

/-- C1 witness: the amended fallback behaviour at the concrete input of the
counterexample. -/
theorem c1_hint_missing_falls_back_witness :
    get_lock_file env7777 dir100 = lockFallback dir100 ∧
      (dir100.files = [] → get_lock_file env7777 dir100 = .ok (none, none)) :=
  c1_hint_missing_falls_back env7777 dir100 "7777" rfl (by decide) rfl

def corruptEntry : FileEntry := ⟨"100.lock", 3, .error (.jsonDecodeError "Expecting value")⟩

def dirCorrupt : IdeDir := ⟨[corruptEntry]⟩

/-- C3 counterexample: a descriptor whose contents do not parse makes
`get_lock_file` propagate the raw `json.JSONDecodeError`; the failure is
not converted to the NotFound result `(None, None)`. -/
theorem c3_counterexample :
    get_lock_file envNoHint dirCorrupt = .error (.jsonDecodeError "Expecting value") ∧
      get_lock_file envNoHint dirCorrupt ≠ .ok (none, none) := by
  refine ⟨rfl, fun h => ?_⟩
  have h0 : (Except.error (PyExc.jsonDecodeError "Expecting value") :
        Except PyExc (Option String × Option Json)) =
      Except.ok (none, none) :=
    (rfl : get_lock_file envNoHint dirCorrupt = _).symm.trans h
  simp at h0

/-- C3 (amended): a parse failure while reading the selected descriptor file
is not surfaced as NotFound with a diagnostic: the exception propagates raw
out of `get_lock_file`, and both front-ends crash on it (the one-shot lookup
gate and the proxy alike), since neither wraps the lookup in a handler. -/
theorem c3_parse_error_propagates (env : Env) (dir : IdeDir) (f : FileEntry)
    (fs : List FileEntry) (e : PyExc) (connect : Except PyExc Unit)
    (sendFail : Nat → Bool) (stdinLines : List String) (ws : WsIncoming)
    (h1 : optStrTruthy (pyOrStr env.claudeCodeSsePort env.nvimControlPort) = false)
    (h2 : dir.files = f :: fs)
    (h3 : (pyMaxBy FileEntry.mtime f fs).json = .error e) :
    get_lock_file env dir = .error e ∧
      main_lookup_gate env dir = .error e ∧
      run_mcp_stdio_server env dir connect sendFail stdinLines ws = .error e := by
  have hg : get_lock_file env dir = .error e := by
    rw [get_lock_file_noHint env dir h1]
    simp [lockFallback, h2, readLock, h3]
  exact ⟨hg, by simp [main_lookup_gate, hg], by simp [run_mcp_stdio_server, hg]⟩

/-- C3 witness: the amended propagation behaviour at the counterexample's
concrete input. -/
theorem c3_parse_error_propagates_witness :
    get_lock_file envNoHint dirCorrupt = .error (.jsonDecodeError "Expecting value") ∧
      main_lookup_gate envNoHint dirCorrupt = .error (.jsonDecodeError "Expecting value") ∧
      run_mcp_stdio_server envNoHint dirCorrupt (.ok ()) (fun _ => false) [] ⟨[], .graceful⟩ =
        .error (.jsonDecodeError "Expecting value") :=
  c3_parse_error_propagates envNoHint dirCorrupt corruptEntry [] _ (.ok ())
    (fun _ => false) [] ⟨[], .graceful⟩ rfl rfl rfl

theorem stdin_to_ws_eq (sendOk : Nat → Bool) (hOk : ∀ k, sendOk k = false) :
    ∀ (lines : List String) (k : Nat),
      stdin_to_ws sendOk k lines =
        ((lines.takeWhile (fun l => l != "")).map pyStrip).filter (fun s => s != "")
  | [], _ => rfl
  | line :: rest, k => by
    rw [stdin_to_ws]
    by_cases h1 : line = ""
    · subst h1
      simp [List.takeWhile_cons]
    · by_cases h2 : pyStrip line = ""
      · simp [h1, h2, List.takeWhile_cons, List.filter_cons,
          stdin_to_ws_eq sendOk hOk rest]
      · simp [h1, h2, hOk k, List.takeWhile_cons, List.filter_cons,
          stdin_to_ws_eq sendOk hOk rest]

/-- C4 counterexample: on the spec's input vector the inbound direction
forwards only `["foo"]`, not `["foo", "bar"]` — the empty string is
`readline`'s end-of-file marker, so the loop breaks before `"bar\n"`. -/
theorem c4_counterexample :
    stdin_to_ws (fun _ => false) 0 ["  ", "foo", "", "bar\n"] ≠ ["foo", "bar"] := by
  decide

/-- C4 (amended): lines are read until the first empty `readline` result
(end of input); every line read before that is stripped and forwarded iff
the stripped line is non-empty, preserving order.  On the spec's vector
only `["foo"]` is forwarded, `""` being the end-of-input marker; on the
realizable vector whose blank line arrives as a bare newline, exactly
`["foo", "bar"]` are forwarded, in order. -/
theorem c4_strip_forward :
    (∀ (k : Nat) (lines : List String),
        stdin_to_ws (fun _ => false) k lines =
          ((lines.takeWhile (fun l => l != "")).map pyStrip).filter (fun s => s != "")) ∧
      stdin_to_ws (fun _ => false) 0 ["  ", "foo", "", "bar\n"] = ["foo"] ∧
      stdin_to_ws (fun _ => false) 0 ["  \n", "foo\n", "\n", "bar\n"] = ["foo", "bar"] :=
  ⟨fun k lines => stdin_to_ws_eq (fun _ => false) (fun _ => rfl) lines k, rfl, rfl⟩

def entry100 : FileEntry := ⟨"100.lock", 1, .ok (.obj [("authToken", .str "tok1")])⟩

def entry200 : FileEntry := ⟨"200.lock", 2, .ok (.obj [("authToken", .str "tok2")])⟩

def dirTwo : IdeDir := ⟨[entry100, entry200]⟩

/-- C6: with no truthy environment hint and a non-empty lock directory,
discovery reads exactly the entry Python's `max` selects by mtime: that
entry is one of the directory's files and its mtime is maximal. -/
theorem c6_most_recent_selected (env : Env) (dir : IdeDir) (f : FileEntry) (fs : List FileEntry)
    (h1 : optStrTruthy (pyOrStr env.claudeCodeSsePort env.nvimControlPort) = false)
    (h2 : dir.files = f :: fs) :
    (pyMaxBy FileEntry.mtime f fs = f ∨ pyMaxBy FileEntry.mtime f fs ∈ fs) ∧
      (∀ g, (g = f ∨ g ∈ fs) → g.mtime ≤ (pyMaxBy FileEntry.mtime f fs).mtime) ∧
      get_lock_file env dir =
        readLock (pyMaxBy FileEntry.mtime f fs)
          (pyReplaceLock (pyMaxBy FileEntry.mtime f fs).name) := by
  refine ⟨pyMaxBy_mem _ fs f, fun g hg => pyMaxBy_le _ fs f g hg, ?_⟩
  rw [get_lock_file_noHint env dir h1]
  simp [lockFallback, h2]

/-- C6 witness: two descriptors for ports 100 and 200 with mtimes 1 < 2 and
no hint: discovery returns port 200's descriptor. -/
theorem c6_most_recent_selected_witness :
    get_lock_file envNoHint dirTwo = .ok (some "200", some (.str "tok2")) :=
  ((c6_most_recent_selected envNoHint dirTwo entry100 [entry200] rfl rfl).2.2).trans rfl

/-- C2: in both one-shot invocations the first message sent carries id 1
and method "initialize", exactly one message (a response) is received
between that send and the application-level send, and id 1 appears on
exactly one sent request over the channel's lifetime. -/
theorem c2_handshake_order (t : String) (a : Json) (r1 r2 : Json) (rest : List Json) :
    call_tool t a (r1 :: r2 :: rest) =
        some ([.send init_msg, .recv r1, .send (tool_call_msg t a), .recv r2], r2) ∧
      list_tools (r1 :: r2 :: rest) =
        some ([.send init_msg, .recv r1, .send tools_list_msg, .recv r2], r2) ∧
      idIsOne init_msg = true ∧
      jsonField init_msg "method" = some (.str "initialize") ∧
      betweenFirstTwoSends [.send init_msg, .recv r1, .send (tool_call_msg t a), .recv r2] =
        [.recv r1] ∧
      betweenFirstTwoSends [.send init_msg, .recv r1, .send tools_list_msg, .recv r2] =
        [.recv r1] ∧
      (sentMsgs [.send init_msg, .recv r1, .send (tool_call_msg t a), .recv r2]).countP
        idIsOne = 1 ∧
      (sentMsgs [.send init_msg, .recv r1, .send tools_list_msg, .recv r2]).countP
        idIsOne = 1 :=
  ⟨rfl, rfl, rfl, rfl, rfl, rfl, rfl, rfl⟩

/-- C9: `call_tool` sends, after the handshake, exactly one request with
fixed id 2 and method "tools/call" whose params wrap the tool name and the
arguments object verbatim, awaits exactly one further response, and
returns that response parsed, whatever its contents (no id correlation). -/
theorem c9_call_tool_request (t : String) (a : Json) (r1 r2 : Json) (rest : List Json) :
    call_tool t a (r1 :: r2 :: rest) =
        some ([.send init_msg, .recv r1, .send (tool_call_msg t a), .recv r2], r2) ∧
      jsonField (tool_call_msg t a) "id" = some (.num 2) ∧
      jsonField (tool_call_msg t a) "method" = some (.str "tools/call") ∧
      jsonField (tool_call_msg t a) "params" =
        some (.obj [("name", .str t), ("arguments", a)]) :=
  ⟨rfl, rfl, rfl, rfl⟩

def tokenEntry : FileEntry := ⟨"100.lock", 5, .ok (.obj [("authToken", .str "sekrit")])⟩

def dirTok : IdeDir := ⟨[tokenEntry]⟩

/-- C5 counterexample: a session is found and the connection opens; the
first `ws.send` raises (genuine transport failure) and the connection later
closes abnormally, yet the proxy's stdout carries only the relayed message
with no error report of any kind, the outbound direction runs to completion
instead of being short-circuited, and the run completes normally. -/
theorem c5_counterexample :
    run_mcp_stdio_server envNoHint dirTok (.ok ()) (fun _ => true) ["foo\n"]
        ⟨["a"], .abnormal⟩ =
      .ok ⟨[.write (.raw "a"), .flush], [], true⟩ ∧
      reportsError [.write (.raw "a"), .flush] = false :=
  ⟨rfl, rfl⟩

/-- C5 (amended): once the relay starts, failures are swallowed rather than
reported: an exception in the inbound direction (a failing `ws.send`
included) silently ends only that direction, an abnormal close of the
connection is treated exactly like a graceful close, neither direction
short-circuits the other, nothing synthesized is ever printed, and the
process exits 0.  Only blank stdin lines and inbound end-of-input were
supposed to be swallowed; in fact every relay failure is. -/
theorem c5_failures_swallowed (env : Env) (dir : IdeDir) (p : Option String)
    (t : Option Json) (sendFail : Nat → Bool) (stdinLines : List String) (ws : WsIncoming)
    (h1 : get_lock_file env dir = .ok (p, t))
    (h2 : optStrTruthy p = true) (h3 : optJsonTruthy t = true) :
    run_mcp_stdio_server env dir (.ok ()) sendFail stdinLines ws =
        .ok ⟨ws_to_stdout ws.msgs, stdin_to_ws sendFail 0 stdinLines, true⟩ ∧
      reportsError (ws_to_stdout ws.msgs) = false ∧
      main_mcp_exit env dir (.ok ()) sendFail stdinLines ws = .ok 0 := by
  have hr : run_mcp_stdio_server env dir (.ok ()) sendFail stdinLines ws =
      .ok ⟨ws_to_stdout ws.msgs, stdin_to_ws sendFail 0 stdinLines, true⟩ := by
    simp [run_mcp_stdio_server, h1, h2, h3, ws_to_stdout_run_eq]
  exact ⟨hr, ws_to_stdout_no_report ws.msgs, by simp [main_mcp_exit, hr]⟩

/-- C5 witness: the amended behaviour at the counterexample's input. -/
theorem c5_failures_swallowed_witness :
    run_mcp_stdio_server envNoHint dirTok (.ok ()) (fun _ => true) ["foo\n"]
        ⟨["a"], .abnormal⟩ =
      .ok ⟨ws_to_stdout ["a"], stdin_to_ws (fun _ => true) 0 ["foo\n"], true⟩ ∧
      reportsError (ws_to_stdout ["a"]) = false ∧
      main_mcp_exit envNoHint dirTok (.ok ()) (fun _ => true) ["foo\n"]
        ⟨["a"], .abnormal⟩ = .ok 0 :=
  c5_failures_swallowed envNoHint dirTok (some "100") (some (.str "sekrit"))
    (fun _ => true) ["foo\n"] ⟨["a"], .abnormal⟩ rfl rfl rfl

/-- The two ways a proxy run can fail before any relay direction starts:
the lookup returned an unusable pair, or the initial connect raised.  `m`
is the message of the synthetic response printed in that case. -/
def ProxyErrPath (env : Env) (dir : IdeDir) (connect : Except PyExc Unit) (m : String) :
    Prop :=
  (∃ p t, get_lock_file env dir = .ok (p, t) ∧
      (optStrTruthy p && optJsonTruthy t) = false ∧ m = noSessionMsg) ∨
    (∃ p t e, get_lock_file env dir = .ok (p, t) ∧
      (optStrTruthy p && optJsonTruthy t) = true ∧ connect = .error e ∧
      m = "Failed to connect to Neovim: " ++ pyStr e)

/-- C7: when the session lookup yields no usable session or the initial
connect fails, the proxy prints exactly one synthetic error response —
null id, code -32603 — starts no relay direction, sends nothing, and the
process still exits 0. -/
theorem c7_pre_relay_error (env : Env) (dir : IdeDir) (connect : Except PyExc Unit)
    (sendFail : Nat → Bool) (stdinLines : List String) (ws : WsIncoming) (m : String)
    (h : ProxyErrPath env dir connect m) :
    run_mcp_stdio_server env dir connect sendFail stdinLines ws =
        .ok ⟨printSer (errorResponse m), [], false⟩ ∧
      jsonField (errorResponse m) "id" = some .null ∧
      errCode (errorResponse m) = some (.num (-32603)) ∧
      main_mcp_exit env dir connect sendFail stdinLines ws = .ok 0 := by
  have hr : run_mcp_stdio_server env dir connect sendFail stdinLines ws =
      .ok ⟨printSer (errorResponse m), [], false⟩ := by
    rcases h with ⟨p, t, h1, h2, h3⟩ | ⟨p, t, e, h1, h2, h3, h4⟩
    · subst h3
      rcases Bool.and_eq_false_iff.mp h2 with hb | hb <;>
        simp [run_mcp_stdio_server, h1, hb]
    · subst h4
      rw [Bool.and_eq_true] at h2
      simp [run_mcp_stdio_server, h1, h2.1, h2.2, h3]
  exact ⟨hr, rfl, rfl, by simp [main_mcp_exit, hr]⟩

def dirEmpty : IdeDir := ⟨[]⟩

/-- C7 witness: an empty lock directory and no hint — the proxy prints the
single no-session synthetic response and exits 0 without relaying. -/
theorem c7_pre_relay_error_witness :
    run_mcp_stdio_server envNoHint dirEmpty (.ok ()) (fun _ => false) [] ⟨[], .graceful⟩ =
        .ok ⟨printSer (errorResponse noSessionMsg), [], false⟩ ∧
      jsonField (errorResponse noSessionMsg) "id" = some .null ∧
      errCode (errorResponse noSessionMsg) = some (.num (-32603)) ∧
      main_mcp_exit envNoHint dirEmpty (.ok ()) (fun _ => false) [] ⟨[], .graceful⟩ =
        .ok 0 :=
  c7_pre_relay_error envNoHint dirEmpty (.ok ()) (fun _ => false) [] ⟨[], .graceful⟩
    noSessionMsg (Or.inl ⟨none, none, rfl, rfl, rfl⟩)

/-- C8: every message received from the connection is written to stdout
verbatim (the trailing newline being `print`'s framing), each write
followed by its flush before the next message is processed, in arrival
order. -/
theorem c8_verbatim_relay (w : WsIncoming) :
    (ws_to_stdout_run w).1 =
      w.msgs.flatMap (fun m => [StdoutEvent.write (OutLine.raw m), StdoutEvent.flush]) := by
  rw [ws_to_stdout_run_eq]
  show ws_to_stdout w.msgs = _
  generalize w.msgs = ms
  induction ms with
  | nil => rfl
  | cons m rest ih => simp [ws_to_stdout, ih]

/-- C10: a descriptor file that exists and parses as a JSON object without
an `authToken` field makes `get_lock_file` return the port paired with
`None`; both front-ends then behave exactly as when no session exists —
the one-shot gate prints the no-instance error and exits 1, the proxy
prints the synthetic no-session response and starts no relay.  Stated for
both access paths: a truthy environment hint naming the file, and the
most-recent-file fallback selecting it. -/
theorem c10_missing_token :
    (∀ (env : Env) (dir : IdeDir) (p : String) (f : FileEntry)
        (fields : List (String × Json)) (connect : Except PyExc Unit)
        (sendFail : Nat → Bool) (stdinLines : List String) (ws : WsIncoming),
      pyOrStr env.claudeCodeSsePort env.nvimControlPort = some p → p ≠ "" →
      dir.files.find? (fun g => g.name == p ++ ".lock") = some f →
      f.json = .ok (.obj fields) →
      fields.find? (fun kv => kv.fst == "authToken") = none →
      get_lock_file env dir = .ok (some p, none) ∧
        main_lookup_gate env dir = .ok .noInstanceExit1 ∧
        oneShotGateExit .noInstanceExit1 = some 1 ∧
        run_mcp_stdio_server env dir connect sendFail stdinLines ws =
          .ok ⟨printSer (errorResponse noSessionMsg), [], false⟩) ∧
    (∀ (env : Env) (dir : IdeDir) (f : FileEntry) (fs : List FileEntry)
        (fields : List (String × Json)) (connect : Except PyExc Unit)
        (sendFail : Nat → Bool) (stdinLines : List String) (ws : WsIncoming),
      optStrTruthy (pyOrStr env.claudeCodeSsePort env.nvimControlPort) = false →
      dir.files = f :: fs →
      (pyMaxBy FileEntry.mtime f fs).json = .ok (.obj fields) →
      fields.find? (fun kv => kv.fst == "authToken") = none →
      get_lock_file env dir =
          .ok (some (pyReplaceLock (pyMaxBy FileEntry.mtime f fs).name), none) ∧
        main_lookup_gate env dir = .ok .noInstanceExit1 ∧
        run_mcp_stdio_server env dir connect sendFail stdinLines ws =
          .ok ⟨printSer (errorResponse noSessionMsg), [], false⟩) := by
  constructor
  · intro env dir p f fields connect sendFail stdinLines ws h1 h2 h3 h4 h5
    have hne : (p == "") = false := beq_eq_false_iff_ne.mpr h2
    have hg : get_lock_file env dir = .ok (some p, none) := by
      simp [get_lock_file, h1, hne, h3, readLock, h4, pyDictGet, h5]
    refine ⟨hg, ?_, rfl, ?_⟩
    · simp [main_lookup_gate, hg, optJsonTruthy]
    · simp [run_mcp_stdio_server, hg, optJsonTruthy]
  · intro env dir f fs fields connect sendFail stdinLines ws h1 h2 h3 h4
    have hg : get_lock_file env dir =
        .ok (some (pyReplaceLock (pyMaxBy FileEntry.mtime f fs).name), none) := by
      rw [get_lock_file_noHint env dir h1]
      simp [lockFallback, h2, readLock, h3, pyDictGet, h4]
    refine ⟨hg, ?_, ?_⟩
    · simp [main_lookup_gate, hg, optJsonTruthy]
    · simp [run_mcp_stdio_server, hg, optJsonTruthy]

def noTokEntry : FileEntry := ⟨"42.lock", 7, .ok (.obj [("pid", .num 5)])⟩

def dirNoTok : IdeDir := ⟨[noTokEntry]⟩

def envHint42 : Env := ⟨some "42", none⟩

/-- C10 witness: a hinted descriptor `42.lock` holding a JSON object with only a `pid` field (no
`authToken`): lookup yields `(42, None)`, the one-shot gate exits 1 and the
proxy prints the no-session response without relaying. -/
theorem c10_missing_token_witness :
    get_lock_file envHint42 dirNoTok = .ok (some "42", none) ∧
      main_lookup_gate envHint42 dirNoTok = .ok .noInstanceExit1 ∧
      oneShotGateExit .noInstanceExit1 = some 1 ∧
      run_mcp_stdio_server envHint42 dirNoTok (.ok ()) (fun _ => false) []
          ⟨[], .graceful⟩ =
        .ok ⟨printSer (errorResponse noSessionMsg), [], false⟩ :=
  c10_missing_token.1 envHint42 dirNoTok "42" noTokEntry [("pid", .num 5)] (.ok ())
    (fun _ => false) [] ⟨[], .graceful⟩ rfl (by decide) rfl rfl rfl
